import Mathlib

/-!
Shallow embedding of the IoT gateway pipeline
(`src/iot-device`): packet data model, packet validator,
anomaly classifier, batch buffer with flush-on-threshold,
and the sequence-numbered packet generator.

Float fields of the C++ `IoTPacket` are modelled as `Rat`:
the code only compares them against exactly representable
integer constants, so the ordering behaviour is identical.
The C++ code reads `std::time(nullptr)` inside
`validate_packet`; here the current time `now` is threaded
explicitly, as the spec's deterministic view of the same call.
Console output is modelled as explicit state: the batches
handed to the sink (`sent_batches`) and the rejected sequence
numbers logged (`rejected_log`).
-/

/-- Mirrors `struct IoTPacket` from `common/packet.h`. -/
structure IoTPacket where
  device_id : String
  sequence_no : Int
  temperature : Rat
  humidity : Rat
  packet_rate : Int
  cpu_usage : Rat
  battery_level : Rat
  timestamp : Int

/-- Mirrors `validate_packet` from `gateway/gateway.cpp` (lines 10-19),
with the wall clock `std::time(nullptr)` passed in as `now`. -/
def validate_packet (now : Int) (pkt : IoTPacket) : Bool :=
  if pkt.sequence_no ≤ 0 then false
  else if pkt.temperature < -20 ∨ pkt.temperature > 100 then false
  else if pkt.cpu_usage < 0 ∨ pkt.cpu_usage > 100 then false
  else if pkt.battery_level < 0 ∨ pkt.battery_level > 100 then false
  else if pkt.timestamp > now + 5 then false
  else true

/-- Mirrors `is_anomalous` from `gateway/anomaly_detector.cpp`. -/
def is_anomalous (pkt : IoTPacket) : Bool :=
  if pkt.temperature > 60 then true
  else if pkt.packet_rate > 100 then true
  else false

/-- `BATCH_SIZE` from `gateway/gateway.cpp`. -/
def BATCH_SIZE : Nat := 5

/-- Observable state of the gateway: the global `batch_buffer`,
plus the two console-output channels made explicit — the batches
printed by `send_batch_to_server` (the sink) and the sequence
numbers printed on `[INVALID PACKET DROPPED]` lines. -/
structure GatewayState where
  batch_buffer : List IoTPacket
  sent_batches : List (List IoTPacket)
  rejected_log : List Int

/-- Gateway start state: empty buffer, nothing sent, nothing logged. -/
def initState : GatewayState :=
  { batch_buffer := [], sent_batches := [], rejected_log := [] }

/-- Mirrors `send_batch_to_server` from `gateway/gateway.cpp`
(lines 22-38): print the whole buffer to the sink, then
`batch_buffer.clear()`. -/
def send_batch_to_server (s : GatewayState) : GatewayState :=
  { s with
    sent_batches := s.sent_batches ++ [s.batch_buffer]
    batch_buffer := [] }

/-- Mirrors `process_packet` from `gateway/gateway.cpp`
(lines 41-54): drop-and-log on invalid, else `push_back`
and flush when `batch_buffer.size() >= BATCH_SIZE`. -/
def process_packet (now : Int) (pkt : IoTPacket) (s : GatewayState) : GatewayState :=
  if ¬ validate_packet now pkt then
    { s with rejected_log := s.rejected_log ++ [pkt.sequence_no] }
  else
    let s1 : GatewayState := { s with batch_buffer := s.batch_buffer ++ [pkt] }
    if BATCH_SIZE ≤ s1.batch_buffer.length then send_batch_to_server s1 else s1

/-- Feeding a list of packets through the gateway in order,
as the loop in `main.cpp` does. -/
def processAll (now : Int) (pkts : List IoTPacket) (s : GatewayState) : GatewayState :=
  pkts.foldl (fun st p => process_packet now p st) s

/-- State of `esp32_simulator.cpp`: the static `seq_counter` and
the position in the pseudo-random stream (`rand()` is modelled as
an arbitrary stream `rnd : Nat → Nat` consumed left to right). -/
structure DeviceState where
  seq_counter : Int
  rand_pos : Nat

/-- Mirrors `generate_packet` from `device/esp32_simulator.cpp`:
`++seq_counter`, `timestamp = std::time(nullptr)` (passed as `now`),
and five successive `rand()` draws for the sensor fields. -/
def generate_packet (rnd : Nat → Nat) (now : Int) (s : DeviceState) : IoTPacket × DeviceState :=
  let seq := s.seq_counter + 1
  let pkt : IoTPacket :=
    { device_id := "ESP32_SIM_01"
      sequence_no := seq
      timestamp := now
      temperature := (25 + rnd s.rand_pos % 10 : Nat)
      humidity := (45 + rnd (s.rand_pos + 1) % 20 : Nat)
      packet_rate := (10 + rnd (s.rand_pos + 2) % 10 : Nat)
      cpu_usage := (20 + rnd (s.rand_pos + 3) % 60 : Nat)
      battery_level := (30 + rnd (s.rand_pos + 4) % 70 : Nat) }
  (pkt, { seq_counter := seq, rand_pos := s.rand_pos + 5 })

/-- Device state after `n` calls to `generate_packet`, starting from
`seq_counter = 0`; `nows k` is the wall-clock reading at the
(k+1)-st call. -/
def deviceAfter (rnd : Nat → Nat) (nows : Nat → Int) : Nat → DeviceState
  | 0 => { seq_counter := 0, rand_pos := 0 }
  | k + 1 => (generate_packet rnd (nows k) (deviceAfter rnd nows k)).2

/-- The packet returned by the (k+1)-st call to `generate_packet`. -/
def nthPacket (rnd : Nat → Nat) (nows : Nat → Int) (k : Nat) : IoTPacket :=
  (generate_packet rnd (nows k) (deviceAfter rnd nows k)).1

/-- A concrete in-range packet used by witnesses. -/
def samplePkt (n : Int) : IoTPacket :=
  { device_id := "ESP32_SIM_01"
    sequence_no := n
    temperature := 25
    humidity := 50
    packet_rate := 12
    cpu_usage := 40
    battery_level := 80
    timestamp := 0 }

/-! ## Shared lemmas about the validator -/

/-- The exact rejection condition of `validate_packet`, read off the
source's early-return chain. -/
lemma validate_packet_eq_false_iff (now : Int) (pkt : IoTPacket) :
    validate_packet now pkt = false ↔
      (pkt.sequence_no ≤ 0 ∨
       pkt.temperature < -20 ∨ pkt.temperature > 100 ∨
       pkt.cpu_usage < 0 ∨ pkt.cpu_usage > 100 ∨
       pkt.battery_level < 0 ∨ pkt.battery_level > 100 ∨
       pkt.timestamp > now + 5) := by
  unfold validate_packet
  split_ifs <;> simp_all <;> tauto

/-- Acceptance condition, the contrapositive form. -/
lemma validate_packet_eq_true_iff (now : Int) (pkt : IoTPacket) :
    validate_packet now pkt = true ↔
      (0 < pkt.sequence_no ∧
       -20 ≤ pkt.temperature ∧ pkt.temperature ≤ 100 ∧
       0 ≤ pkt.cpu_usage ∧ pkt.cpu_usage ≤ 100 ∧
       0 ≤ pkt.battery_level ∧ pkt.battery_level ≤ 100 ∧
       pkt.timestamp ≤ now + 5) := by
  rw [← Bool.not_eq_false, validate_packet_eq_false_iff]
  push_neg
  tauto

/-! ## Claim theorems: validator -/

/-- C1: `validate_packet` returns false iff `sequence_no ≤ 0`, or
`temperature` outside `[-20, 100]`, or `cpu_usage` outside `[0, 100]`,
or `battery_level` outside `[0, 100]`, or `timestamp > now + 5`; in
every other case it returns true. Rejection is signalled only by the
boolean result: the function is total, returning `true` exactly when
the rejection disjunction fails. -/
theorem c1_validate_packet_correct (now : Int) (pkt : IoTPacket) :
    (validate_packet now pkt = false ↔
      (pkt.sequence_no ≤ 0 ∨
       pkt.temperature < -20 ∨ pkt.temperature > 100 ∨
       pkt.cpu_usage < 0 ∨ pkt.cpu_usage > 100 ∨
       pkt.battery_level < 0 ∨ pkt.battery_level > 100 ∨
       pkt.timestamp > now + 5)) ∧
    (¬ (pkt.sequence_no ≤ 0 ∨
       pkt.temperature < -20 ∨ pkt.temperature > 100 ∨
       pkt.cpu_usage < 0 ∨ pkt.cpu_usage > 100 ∨
       pkt.battery_level < 0 ∨ pkt.battery_level > 100 ∨
       pkt.timestamp > now + 5) →
      validate_packet now pkt = true) := by
  refine ⟨validate_packet_eq_false_iff now pkt, fun h => ?_⟩
  cases hv : validate_packet now pkt with
  | false => exact absurd ((validate_packet_eq_false_iff now pkt).mp hv) h
  | true => rfl

/-- C7: boundary behaviour of `validate_packet`. A temperature outside
`[-20, 100]` forces rejection regardless of the other fields; at
exactly `-20` or `100` with the other fields in range the packet is
accepted; with every field in range and `timestamp ≤ now + 5` the
packet is accepted; and `timestamp = now + 6` forces rejection
regardless of the other fields. -/
theorem c7_validate_boundaries (now : Int) :
    (∀ pkt : IoTPacket, pkt.temperature < -20 ∨ 100 < pkt.temperature →
        validate_packet now pkt = false) ∧
    (∀ pkt : IoTPacket, 0 < pkt.sequence_no →
        0 ≤ pkt.cpu_usage → pkt.cpu_usage ≤ 100 →
        0 ≤ pkt.battery_level → pkt.battery_level ≤ 100 →
        pkt.timestamp ≤ now + 5 →
        pkt.temperature = -20 ∨ pkt.temperature = 100 →
        validate_packet now pkt = true) ∧
    (∀ pkt : IoTPacket, 0 < pkt.sequence_no →
        -20 ≤ pkt.temperature → pkt.temperature ≤ 100 →
        0 ≤ pkt.cpu_usage → pkt.cpu_usage ≤ 100 →
        0 ≤ pkt.battery_level → pkt.battery_level ≤ 100 →
        pkt.timestamp ≤ now + 5 →
        validate_packet now pkt = true) ∧
    (∀ pkt : IoTPacket, pkt.timestamp = now + 6 →
        validate_packet now pkt = false) := by
  refine ⟨fun pkt h => ?_, fun pkt h1 h2 h3 h4 h5 h6 h7 => ?_,
         fun pkt h1 h2 h3 h4 h5 h6 h7 h8 => ?_, fun pkt h => ?_⟩
  · exact (validate_packet_eq_false_iff now pkt).mpr (by tauto)
  · rcases h7 with h7 | h7 <;>
      exact (validate_packet_eq_true_iff now pkt).mpr
        ⟨h1, by rw [h7]; try norm_num, by rw [h7]; try norm_num, h2, h3, h4, h5, h6⟩
  · exact (validate_packet_eq_true_iff now pkt).mpr ⟨h1, h2, h3, h4, h5, h6, h7, h8⟩
  · exact (validate_packet_eq_false_iff now pkt).mpr (by omega)

/-- C7 witness: the boundary theorem applied at concrete packets —
temperature 101 rejected, temperature exactly -20 accepted,
a fully in-range packet accepted, timestamp now + 6 rejected. -/
theorem c7_validate_boundaries_witness :
    validate_packet 0 { samplePkt 1 with temperature := 101 } = false ∧
    validate_packet 0 { samplePkt 1 with temperature := -20 } = true ∧
    validate_packet 0 (samplePkt 1) = true ∧
    validate_packet 0 { samplePkt 1 with timestamp := 6 } = false := by
  refine ⟨(c7_validate_boundaries 0).1 _ ?_,
          (c7_validate_boundaries 0).2.1 _ ?_ ?_ ?_ ?_ ?_ ?_ ?_,
          (c7_validate_boundaries 0).2.2.1 _ ?_ ?_ ?_ ?_ ?_ ?_ ?_ ?_,
          (c7_validate_boundaries 0).2.2.2 _ ?_⟩ <;> decide

/-- C8: `is_anomalous` returns true iff `temperature > 60` or
`packet_rate > 100`, with the advertised behaviour at 61/60 and
101/100; it is a pure boolean predicate of the packet alone. -/
theorem c8_is_anomalous_correct (pkt : IoTPacket) :
    (is_anomalous pkt = true ↔ pkt.temperature > 60 ∨ pkt.packet_rate > 100) ∧
    (pkt.temperature = 61 → is_anomalous pkt = true) ∧
    (pkt.temperature = 60 → pkt.packet_rate ≤ 100 → is_anomalous pkt = false) ∧
    (pkt.packet_rate = 101 → is_anomalous pkt = true) ∧
    (pkt.packet_rate = 100 → pkt.temperature ≤ 60 → is_anomalous pkt = false) := by
  have hiff : is_anomalous pkt = true ↔ pkt.temperature > 60 ∨ pkt.packet_rate > 100 := by
    unfold is_anomalous
    split_ifs <;> simp_all
  refine ⟨hiff, fun h => ?_, fun h1 h2 => ?_, fun h => ?_, fun h1 h2 => ?_⟩
  · exact hiff.mpr (Or.inl (by rw [h]; norm_num))
  · rw [Bool.eq_false_iff]
    intro hc
    rcases hiff.mp hc with hc | hc
    · rw [h1] at hc; norm_num at hc
    · omega
  · exact hiff.mpr (Or.inr (by omega))
  · rw [Bool.eq_false_iff]
    intro hc
    rcases hiff.mp hc with hc | hc
    · exact absurd hc (not_lt.mpr h2)
    · omega

/-- C8 witness: the classifier theorem applied at concrete packets on
both sides of each threshold. -/
theorem c8_is_anomalous_witness :
    is_anomalous { samplePkt 1 with temperature := 61 } = true ∧
    is_anomalous { samplePkt 1 with temperature := 60 } = false ∧
    is_anomalous { samplePkt 1 with packet_rate := 101 } = true ∧
    is_anomalous { samplePkt 1 with packet_rate := 100 } = false := by
  refine ⟨(c8_is_anomalous_correct _).2.1 ?_,
          (c8_is_anomalous_correct _).2.2.1 ?_ ?_,
          (c8_is_anomalous_correct _).2.2.2.1 ?_,
          (c8_is_anomalous_correct _).2.2.2.2 ?_ ?_⟩ <;> decide

/-- C10: validation never depends on `humidity` or `packet_rate`.
Two packets agreeing on every other field validate identically at
every time `now`. -/
theorem c10_validate_ignores_humidity_rate (now : Int) (p q : IoTPacket)
    (_hd : p.device_id = q.device_id)
    (hs : p.sequence_no = q.sequence_no)
    (ht : p.temperature = q.temperature)
    (hc : p.cpu_usage = q.cpu_usage)
    (hb : p.battery_level = q.battery_level)
    (hts : p.timestamp = q.timestamp) :
    validate_packet now p = validate_packet now q := by
  unfold validate_packet
  rw [hs, ht, hc, hb, hts]

/-- C10 witness: extreme humidity and packet_rate do not change the
verdict of an otherwise identical packet. -/
theorem c10_validate_ignores_humidity_rate_witness :
    validate_packet 0 (samplePkt 1) =
      validate_packet 0 { samplePkt 1 with humidity := -1000000, packet_rate := 1000000 } :=
  c10_validate_ignores_humidity_rate 0 _ _ rfl rfl rfl rfl rfl rfl

/-! ## Shared lemmas about the pipeline -/

/-- A valid packet that does not fill the buffer is appended and
nothing else happens. -/
lemma process_valid_below (now : Int) (pkt : IoTPacket) (s : GatewayState)
    (hv : validate_packet now pkt = true)
    (hlen : s.batch_buffer.length + 1 < BATCH_SIZE) :
    process_packet now pkt s = { s with batch_buffer := s.batch_buffer ++ [pkt] } := by
  have hcond : ¬ (BATCH_SIZE ≤ s.batch_buffer.length + 1) := by omega
  simp [process_packet, hv, hcond]

/-- A valid packet that fills the buffer triggers the flush: the
buffer plus the new packet goes to the sink and the buffer empties. -/
lemma process_valid_fill (now : Int) (pkt : IoTPacket) (s : GatewayState)
    (hv : validate_packet now pkt = true)
    (hlen : BATCH_SIZE ≤ s.batch_buffer.length + 1) :
    process_packet now pkt s =
      { batch_buffer := []
        sent_batches := s.sent_batches ++ [s.batch_buffer ++ [pkt]]
        rejected_log := s.rejected_log } := by
  simp [process_packet, hv, hlen, send_batch_to_server]

/-- Conservation: everything the gateway has sent, followed by what is
still buffered, is exactly the valid packets fed in, in order. -/
lemma processAll_conservation (now : Int) (pkts : List IoTPacket) (s : GatewayState) :
    (processAll now pkts s).sent_batches.flatten ++ (processAll now pkts s).batch_buffer =
      s.sent_batches.flatten ++ s.batch_buffer ++ pkts.filter (validate_packet now) := by
  induction pkts generalizing s with
  | nil => simp [processAll]
  | cons p rest ih =>
    have hstep : processAll now (p :: rest) s = processAll now rest (process_packet now p s) := by
      simp [processAll]
    rw [hstep, ih]
    cases hv : validate_packet now p with
    | false =>
      simp [process_packet, hv, List.filter]
    | true =>
      by_cases hlen : s.batch_buffer.length + 1 < BATCH_SIZE
      · rw [process_valid_below now p s hv hlen]
        simp [List.filter, hv, List.append_assoc]
      · rw [process_valid_fill now p s hv (by omega)]
        simp [List.filter, hv, List.append_assoc]

/-! ## Claim theorems: pipeline -/

/-- C5: when a packet fails validation, `process_packet` leaves the
buffer and the sink untouched — nothing is appended, no flush occurs —
and the only effect is the diagnostic line carrying the rejected
sequence number. -/
theorem c5_invalid_packet_dropped (now : Int) (pkt : IoTPacket) (s : GatewayState)
    (h : validate_packet now pkt = false) :
    (process_packet now pkt s).batch_buffer = s.batch_buffer ∧
    (process_packet now pkt s).sent_batches = s.sent_batches ∧
    (process_packet now pkt s).rejected_log = s.rejected_log ++ [pkt.sequence_no] := by
  unfold process_packet
  rw [h]
  simp

/-- C5 witness: a packet with `sequence_no = 0` is invalid; processing
it from the start state changes nothing but the diagnostic log. -/
theorem c5_invalid_packet_dropped_witness :
    validate_packet 0 (samplePkt 0) = false ∧
    (process_packet 0 (samplePkt 0) initState).batch_buffer = [] ∧
    (process_packet 0 (samplePkt 0) initState).sent_batches = [] ∧
    (process_packet 0 (samplePkt 0) initState).rejected_log = [0] := by
  have h := c5_invalid_packet_dropped 0 (samplePkt 0) initState (by decide)
  exact ⟨by decide, h.1, h.2.1, h.2.2⟩

/-- C3: for every gateway state, the flush hands the sink exactly the
buffered packets — those appended since the last flush — as one batch
in append order, with no duplication or loss (the sink's history grows
by exactly that one batch), and the buffer is empty once it returns.
Moreover, along any run of the pipeline, the packets sent plus the
packets still buffered are exactly the accepted packets in arrival
order. -/
theorem c3_flush_delivers_in_order (s : GatewayState) :
    (send_batch_to_server s).batch_buffer = [] ∧
    (send_batch_to_server s).sent_batches = s.sent_batches ++ [s.batch_buffer] ∧
    ∀ (now : Int) (pkts : List IoTPacket),
      (processAll now pkts initState).sent_batches.flatten ++
        (processAll now pkts initState).batch_buffer =
        pkts.filter (validate_packet now) := by
  refine ⟨rfl, rfl, fun now pkts => ?_⟩
  have h := processAll_conservation now pkts initState
  simpa [initState] using h

/-- One step preserves the buffer bound and the full-batch property
of everything already sent. -/
lemma process_packet_inv (now : Int) (pkt : IoTPacket) (s : GatewayState)
    (h1 : s.batch_buffer.length < BATCH_SIZE)
    (h2 : ∀ b ∈ s.sent_batches, b.length = BATCH_SIZE) :
    (process_packet now pkt s).batch_buffer.length < BATCH_SIZE ∧
    ∀ b ∈ (process_packet now pkt s).sent_batches, b.length = BATCH_SIZE := by
  have hB : BATCH_SIZE = 5 := rfl
  cases hv : validate_packet now pkt with
  | false =>
    simp only [process_packet, hv, Bool.false_eq_true, not_false_eq_true, if_pos]
    exact ⟨h1, h2⟩
  | true =>
    by_cases hlen : s.batch_buffer.length + 1 < BATCH_SIZE
    · rw [process_valid_below now pkt s hv hlen]
      refine ⟨by simpa using hlen, h2⟩
    · rw [process_valid_fill now pkt s hv (by omega)]
      refine ⟨by simp [hB], fun b hb => ?_⟩
      simp only [List.mem_append, List.mem_singleton] at hb
      rcases hb with hb | hb
      · exact h2 b hb
      · subst hb
        simp only [List.length_append, List.length_cons, List.length_nil]
        omega

/-- The bound and full-batch property hold along any run. -/
lemma processAll_inv (now : Int) (pkts : List IoTPacket) (s : GatewayState)
    (h1 : s.batch_buffer.length < BATCH_SIZE)
    (h2 : ∀ b ∈ s.sent_batches, b.length = BATCH_SIZE) :
    (processAll now pkts s).batch_buffer.length < BATCH_SIZE ∧
    ∀ b ∈ (processAll now pkts s).sent_batches, b.length = BATCH_SIZE := by
  induction pkts generalizing s with
  | nil => exact ⟨h1, h2⟩
  | cons p rest ih =>
    have hstep := process_packet_inv now p s h1 h2
    simpa [processAll] using ih (process_packet now p s) hstep.1 hstep.2

/-- C6: the buffer is bounded by the threshold. After any run from the
start state the buffer holds at most `BATCH_SIZE - 1` packets and every
batch ever flushed holds exactly `BATCH_SIZE` — the buffer reaches the
threshold only transiently inside a call, at which point the flush
fires and empties it. Moreover, a single `process_packet` call from any
state below the threshold returns below the threshold. -/
theorem c6_buffer_never_exceeds_threshold (now : Int) (pkts : List IoTPacket) :
    ((processAll now pkts initState).batch_buffer.length ≤ BATCH_SIZE - 1 ∧
     ∀ b ∈ (processAll now pkts initState).sent_batches, b.length = BATCH_SIZE) ∧
    (∀ (pkt : IoTPacket) (s : GatewayState),
      s.batch_buffer.length ≤ BATCH_SIZE - 1 →
      (process_packet now pkt s).batch_buffer.length ≤ BATCH_SIZE - 1) := by
  have hB : BATCH_SIZE = 5 := rfl
  constructor
  · have h := processAll_inv now pkts initState (by simp [initState, hB]) (by simp [initState])
    exact ⟨by omega, h.2⟩
  · intro pkt s hs
    cases hv : validate_packet now pkt with
    | false =>
      simp only [process_packet, hv, Bool.false_eq_true, not_false_eq_true, if_pos]
      exact hs
    | true =>
      by_cases hlen : s.batch_buffer.length + 1 < BATCH_SIZE
      · rw [process_valid_below now pkt s hv hlen]
        simp only [List.length_append, List.length_cons, List.length_nil]
        omega
      · rw [process_valid_fill now pkt s hv (by omega)]
        simp [hB]

/-- C6 witness: the step bound applied at the start state with a
concrete in-range packet. -/
theorem c6_buffer_never_exceeds_threshold_witness :
    (process_packet 0 (samplePkt 1) initState).batch_buffer.length ≤ BATCH_SIZE - 1 :=
  (c6_buffer_never_exceeds_threshold 0 []).2 (samplePkt 1) initState (by decide)

/-- C2: from an empty buffer, exactly `BATCH_SIZE` valid packets
trigger exactly one flush and leave the buffer empty, while
`BATCH_SIZE - 1` valid packets trigger no flush and leave all
`BATCH_SIZE - 1` of them buffered. -/
theorem c2_threshold_triggers_single_flush (now : Int) (pkts : List IoTPacket)
    (hval : ∀ p ∈ pkts, validate_packet now p = true) :
    (pkts.length = BATCH_SIZE →
      (processAll now pkts initState).sent_batches.length = 1 ∧
      (processAll now pkts initState).batch_buffer.length = 0) ∧
    (pkts.length = BATCH_SIZE - 1 →
      (processAll now pkts initState).sent_batches.length = 0 ∧
      (processAll now pkts initState).batch_buffer.length = BATCH_SIZE - 1) := by
  constructor <;> intro hlen <;>
    rcases pkts with _ | ⟨a, _ | ⟨b, _ | ⟨c, _ | ⟨d, _ | ⟨e, _ | ⟨f, t⟩⟩⟩⟩⟩⟩ <;>
    simp only [List.length_cons, List.length_nil, BATCH_SIZE] at hlen <;>
    try omega
  · simp only [List.mem_cons, List.not_mem_nil, or_false, forall_eq_or_imp, forall_eq] at hval
    obtain ⟨ha, hb, hc, hd, he⟩ := hval
    simp [processAll, process_packet, send_batch_to_server, ha, hb, hc, hd, he,
      BATCH_SIZE, initState]
  · simp only [List.mem_cons, List.not_mem_nil, or_false, forall_eq_or_imp, forall_eq] at hval
    obtain ⟨ha, hb, hc, hd⟩ := hval
    simp [processAll, process_packet, send_batch_to_server, ha, hb, hc, hd,
      BATCH_SIZE, initState]

/-- C2 witness: five concrete valid packets flush once and empty the
buffer; four concrete valid packets stay buffered with no flush. -/
theorem c2_threshold_triggers_single_flush_witness :
    ((processAll 0 [samplePkt 1, samplePkt 2, samplePkt 3, samplePkt 4, samplePkt 5]
        initState).sent_batches.length = 1 ∧
     (processAll 0 [samplePkt 1, samplePkt 2, samplePkt 3, samplePkt 4, samplePkt 5]
        initState).batch_buffer.length = 0) ∧
    ((processAll 0 [samplePkt 1, samplePkt 2, samplePkt 3, samplePkt 4]
        initState).sent_batches.length = 0 ∧
     (processAll 0 [samplePkt 1, samplePkt 2, samplePkt 3, samplePkt 4]
        initState).batch_buffer.length = BATCH_SIZE - 1) :=
  ⟨(c2_threshold_triggers_single_flush 0 _ (by decide)).1 (by decide),
   (c2_threshold_triggers_single_flush 0 _ (by decide)).2 (by decide)⟩

/-- C4: feeding 12 valid packets with sequence numbers 1..12 from the
start state flushes after the 5th packet and again after the 10th,
each flush carrying exactly 5 packets (the first five, then the next
five, in arrival order), and leaves exactly the packets numbered 11
and 12 in the buffer. -/
theorem c4_twelve_packet_run (now : Int) (pkts : List IoTPacket)
    (hval : ∀ p ∈ pkts, validate_packet now p = true)
    (hseq : pkts.map IoTPacket.sequence_no = [1, 2, 3, 4, 5, 6, 7, 8, 9, 10, 11, 12]) :
    (processAll now (pkts.take 5) initState).sent_batches.length = 1 ∧
    (processAll now (pkts.take 10) initState).sent_batches.length = 2 ∧
    (processAll now pkts initState).sent_batches = [pkts.take 5, (pkts.drop 5).take 5] ∧
    (processAll now pkts initState).sent_batches.map List.length = [5, 5] ∧
    (processAll now pkts initState).batch_buffer.map IoTPacket.sequence_no = [11, 12] := by
  rcases pkts with _ | ⟨p1, _ | ⟨p2, _ | ⟨p3, _ | ⟨p4, _ | ⟨p5, _ | ⟨p6, _ | ⟨p7,
    _ | ⟨p8, _ | ⟨p9, _ | ⟨p10, _ | ⟨p11, _ | ⟨p12, _ | ⟨p13, t⟩⟩⟩⟩⟩⟩⟩⟩⟩⟩⟩⟩⟩ <;>
    simp only [List.map_cons, List.map_nil, List.cons.injEq, List.nil_eq,
      reduceCtorEq, and_false, false_and] at hseq
  simp only [List.mem_cons, List.not_mem_nil, or_false, forall_eq_or_imp, forall_eq] at hval
  obtain ⟨h1, h2, h3, h4, h5, h6, h7, h8, h9, h10, h11, h12⟩ := hval
  refine ⟨?_, ?_, ?_, ?_, ?_⟩ <;>
    simp [processAll, process_packet, send_batch_to_server, initState, BATCH_SIZE,
      h1, h2, h3, h4, h5, h6, h7, h8, h9, h10, h11, h12, hseq.2.2.2.2.2.2.2.2.2.2]

/-- The 12 packets of the reference run, with in-range fields. -/
def refRunPkts : List IoTPacket :=
  [samplePkt 1, samplePkt 2, samplePkt 3, samplePkt 4, samplePkt 5, samplePkt 6,
   samplePkt 7, samplePkt 8, samplePkt 9, samplePkt 10, samplePkt 11, samplePkt 12]

/-- C4 witness: the end-to-end theorem applied to 12 concrete packets
numbered 1..12. -/
theorem c4_twelve_packet_run_witness :
    (processAll 0 (refRunPkts.take 5) initState).sent_batches.length = 1 ∧
    (processAll 0 (refRunPkts.take 10) initState).sent_batches.length = 2 ∧
    (processAll 0 refRunPkts initState).sent_batches.map List.length = [5, 5] ∧
    (processAll 0 refRunPkts initState).batch_buffer.map IoTPacket.sequence_no = [11, 12] := by
  have h := c4_twelve_packet_run 0 refRunPkts (by decide) (by decide)
  exact ⟨h.1, h.2.1, h.2.2.2.1, h.2.2.2.2⟩

/-! ## Claim theorems: packet generator -/

/-- The static counter equals the number of calls made so far. -/
lemma deviceAfter_seq_counter (rnd : Nat → Nat) (nows : Nat → Int) (k : Nat) :
    (deviceAfter rnd nows k).seq_counter = k := by
  induction k with
  | zero => rfl
  | succ n ih =>
    simp only [deviceAfter, generate_packet, ih]
    push_cast
    ring

/-- C9: the generator's sequence numbers are exactly 1, 2, 3, ...:
the (k+1)-st call returns `sequence_no = k + 1` (so they start at 1
and strictly increase), and the packet's timestamp is the wall-clock
reading `nows k` taken at that call. -/
theorem c9_generator_sequence_and_timestamp (rnd : Nat → Nat) (nows : Nat → Int) (k : Nat) :
    (nthPacket rnd nows k).sequence_no = k + 1 ∧
    (nthPacket rnd nows k).timestamp = nows k := by
  refine ⟨?_, rfl⟩
  simp only [nthPacket, generate_packet, deviceAfter_seq_counter]

/-- C1 witness: the acceptance direction applied to a concrete
in-range packet. -/
theorem c1_validate_packet_correct_witness :
    validate_packet 0 (samplePkt 1) = true :=
  (c1_validate_packet_correct 0 (samplePkt 1)).2 (by decide)
